import Mathlib

/-!
Verification development for the temit messaging client.

The definitions below are a shallow embedding of the TypeScript sources:
the request/reply correlation engine (components/Requester.ts), the
connection lifecycle (TemitClient.ts), the consumer bootstrap state
machine (components/Endpoint.ts, components/Listener.ts), the delay
scheduler (Emitter.assertDemitQueue), the handler normalisation layer
(utils/handlers.ts) and the reply codec (utils/messaging.ts).

JavaScript values that flow through handlers and message bodies are
modelled by `JsVal`; promises are modelled by `Except` (rejection on the
left, resolution on the right); the event bus and timers of the
correlation engine are modelled by an explicit per-message-id state.
-/

namespace Temit

/-- Model of a JavaScript value as it appears in handler arguments,
handler results and serialized message bodies.  The constructor `undef`
stands for the JavaScript value `undefined` (distinct from `null`);
`errObj` stands for a plain object produced by the serialize-error
package from an Error instance. -/
inductive JsVal where
  | undef
  | null
  | bool (b : Bool)
  | num (n : Int)
  | str (s : String)
  | arr (xs : List JsVal)
  | errObj (name message : String)

/-- Model of a value thrown or used to reject a promise in JavaScript:
either an Error instance (carrying name and message) or an arbitrary
non-Error value. -/
inductive JsErr where
  | errorInst (name message : String)
  | rawVal (v : JsVal)

/-- Embedding of the expression `err instanceof Error ? serializeError(err) : err`
from utils/handlers.ts: an Error instance is serialized to a plain object,
any other thrown value is passed through unchanged. -/
def serializeThrown : JsErr → JsVal
  | .errorInst n m => .errObj n m
  | .rawVal v => v

/-- JavaScript truthiness of a modelled value, used by the correlation
engine (`if (err) reject(err); else resolve(data)`). -/
def JsVal.truthy : JsVal → Bool
  | .undef => false
  | .null => false
  | .bool b => b
  | .num n => n != 0
  | .str s => s != ""
  | .arr _ => true
  | .errObj _ _ => true

/-- Behaviour of one invocation of a callable consumer handler: it may
return a value (possibly `null` or `undefined`), throw synchronously, or
return a promise that rejects. -/
inductive FnOutcome where
  | ret (v : JsVal)
  | throwSync (e : JsErr)
  | reject (e : JsErr)

/-- A consumer handler as accepted by Endpoint and Listener: either
non-callable static data, or a function whose behaviour at this
invocation is given by `FnOutcome`. -/
inductive ConsumerHandler where
  | staticData (v : JsVal)
  | fn (outcome : FnOutcome)

/-- Embedding of `wrapHandler` from utils/handlers.ts for one invocation.
The executor only ever calls `resolve`, so the wrapped promise is
modelled as an `Except` that the definition never sends to the error
side: static data resolves to `[null, fn]`; a returned value `v`
resolves to `[null, v]`; a synchronous throw is caught by the outer
`catch` and a rejection by the `.catch` chain, both resolving to
`[serialized error, null]`. -/
def wrapHandler : ConsumerHandler → Except JsErr (JsVal × JsVal)
  | .staticData v => .ok (.null, v)
  | .fn (.ret v) => .ok (.null, v)
  | .fn (.throwSync e) => .ok (serializeThrown e, .null)
  | .fn (.reject e) => .ok (serializeThrown e, .null)

/-- Error classes from utils/errors.ts that the embedded operations can
throw. -/
inductive TemitError where
  | consumerCancelled
  | replyConsumerCancelled
  | invalidConsumerMessage
  | handlerRequired
  | requesterTimeout
  | requesterNoRoute
  deriving DecidableEq, Repr

/-- Coercion applied by `JSON.stringify` to each element of an array:
the JavaScript value `undefined` is encoded as JSON `null`; every other
modelled value keeps its own JSON encoding. -/
def jsonCoerceElem : JsVal → JsVal
  | .undef => .null
  | v => v

/-- The parsed form of `JSON.stringify([e, r])`, the reply body built by
Endpoint.handleMessage from the wrapped handler result pair. -/
def stringifyPair (e r : JsVal) : JsVal :=
  .arr [jsonCoerceElem e, jsonCoerceElem r]

/-- Embedding of `parseReplyConsumerMessage` from utils/messaging.ts.
The argument is the result of `JSON.parse` on the reply body (`none`
when parsing threw, leaving `fullData` undefined).  A non-array body
throws InvalidConsumerMessageError; otherwise the destructuring
`[err = null, data = null]` reads the first two elements, defaulting
each missing element to `null`. -/
def parseReplyConsumerMessage (content : Option JsVal) :
    Except TemitError (JsVal × JsVal) :=
  match content with
  | none => .error .invalidConsumerMessage
  | some (.arr xs) => .ok (xs.getD 0 .null, xs.getD 1 .null)
  | some _ => .error .invalidConsumerMessage

/-- Composition used on the Endpoint side when a reply is requested:
await the wrapped handler, then serialize its `[err, result]` pair with
`JSON.stringify` (Endpoint.handleMessage). -/
def endpointReplyBody (h : ConsumerHandler) : Except JsErr JsVal :=
  (wrapHandler h).map (fun p => stringifyPair p.1 p.2)

/-- Acknowledgement commands a consumer can issue on its channel. -/
inductive AckAction where
  | ack
  | nack
  deriving DecidableEq, Repr

/-- Ways in which the promise returned by Listener.handleMessage can
reject. -/
inductive ListenerFailure where
  | temit (e : TemitError)
  | rejected (e : JsErr)

/-- The envelope handed to consumer handlers (TemitEvent from
utils/messaging.ts). -/
structure TemitEvent where
  id : String
  type : String
  resource : String
  sent : Option Int := none
  deriving DecidableEq, Repr

/-- Embedding of Listener.handleMessage from components/Listener.ts.
The first argument models the inbound consume message: `none` is a null
message (consumer cancelled), otherwise it carries the outcome of
`parseConsumerMessage` on the body.  The second argument is the handler
stored by the constructor, which handleMessage runs through the wrapped
form (`parseHandler` wires `wrapHandler` in).  A null message throws
ConsumerCancelledError; a body that fails to decode is nacked; otherwise
the wrapped handler is awaited and the message is acked. -/
def Listener.handleMessage
    (msg : Option (Except JsErr (TemitEvent × JsVal)))
    (handler : Option ConsumerHandler) :
    Except ListenerFailure (List AckAction) :=
  match msg with
  | none => .error (.temit .consumerCancelled)
  | some (.error _) => .ok [.nack]
  | some (.ok _) =>
    match handler with
    | none => .error (.temit .handlerRequired)
    | some h =>
      match wrapHandler h with
      | .ok _ => .ok [.ack]
      | .error e => .error (.rejected e)

/-! Correlation engine (components/Requester.ts, waitForResult).  For one
message id, the call registers three `once` listeners on the internal
bus (`data-id`, `timeout-id`, `return-id`) and, when a timeout is
configured, `startTimer` has armed a timer for the id.  The state below
tracks exactly those resources together with the settlement of the
returned promise. -/

/-- Terminal signals that can be emitted on the internal bus for one
message id: a reply (`data-id`, carrying the decoded error slot and
result), the timeout timer firing (`timeout-id`), or the broker
returning the message as unroutable (`return-id`). -/
inductive Signal where
  | data (err : JsVal) (v : JsVal)
  | timeout
  | ret

/-- Settlement of the promise returned by waitForResult. -/
inductive Settlement where
  | resolved (v : JsVal)
  | rejectedData (err : JsVal)
  | rejectedTimeout
  | rejectedNoRoute

/-- Outcome the waitForResult callbacks produce for a signal: the data
callback runs `if (err) reject(err); else resolve(data)`; the timeout
callback rejects with RequesterTimeoutError; the return callback rejects
with RequesterNoRouteError. -/
def settleOf : Signal → Settlement
  | .data e v => if e.truthy then .rejectedData e else .resolved v
  | .timeout => .rejectedTimeout
  | .ret => .rejectedNoRoute

/-- Per-message-id resources of one Requester call: the three bus
listeners registered by waitForResult, the timer armed by startTimer,
and the settlement state of the returned promise. -/
structure PendingState where
  dataListener : Bool
  timeoutListener : Bool
  returnListener : Bool
  timerActive : Bool
  settled : Option Settlement

/-- State right after `send` has published and called waitForResult: all
three listeners registered, the timer armed exactly when a nonzero
timeout was configured (`if (opts.timeout) this.startTimer(...)`), and
the promise unsettled. -/
def initPending (timerArmed : Bool) : PendingState :=
  ⟨true, true, true, timerArmed, none⟩

/-- Whether the bus currently holds a listener for the given signal of
this message id. -/
def listenerFor (st : PendingState) : Signal → Bool
  | .data _ _ => st.dataListener
  | .timeout => st.timeoutListener
  | .ret => st.returnListener

/-- Embedding of one bus emission for this message id against
waitForResult.  If no listener for the signal is registered the emission
is a no-op (EventEmitter semantics).  Otherwise the `once` listener
fires: the promise is settled if it was not already settled (promise
semantics: the first resolve or reject wins) and `close()` runs, which
clears and deletes the timer for the id and removes all listeners of the
three bus channels for the id. -/
def deliver (st : PendingState) (s : Signal) : PendingState :=
  if listenerFor st s then
    { dataListener := false
      timeoutListener := false
      returnListener := false
      timerActive := false
      settled :=
        match st.settled with
        | some x => some x
        | none => some (settleOf s) }
  else st

/-! Delay scheduler (Emitter in components/Endpoint.ts). -/

/-- Internal options of an Emitter after parseOptions: an optional
priority, an optional relative delay in milliseconds, and an optional
schedule, the epoch-millisecond value of the Date (`+options.schedule`). -/
structure InternalEmitterOptions where
  priority : Option Nat := none
  delay : Option Int := none
  schedule : Option Int := none

/-- Public delay option of Emitter.send: a vercel-ms time string, a
number of milliseconds, or a Date. -/
inductive DelayInput where
  | msStr (s : String)
  | millis (n : Int)
  | date (timestamp : Int)

/-- Model of the external vercel-ms package on the strings this
development evaluates; the package maps a duration string to
milliseconds. -/
def msMillis : String → Int
  | "1s" => 1000
  | "2s" => 2000
  | "30s" => 30000
  | "60s" => 60000
  | _ => 0

/-- Embedding of Emitter.parseOptions: a string delay goes through ms, a
valid Date becomes a schedule, a number is taken as the delay in
milliseconds; the per-send options are spread over the per-emitter
options (the priority key is always written, the delay and schedule keys
only when a delay input is present). -/
def Emitter.parseOptions (base : InternalEmitterOptions)
    (priority : Option Nat) (delay : Option DelayInput) :
    InternalEmitterOptions :=
  match delay with
  | none => { base with priority := priority }
  | some (.msStr s) => { priority, delay := some (msMillis s), schedule := base.schedule }
  | some (.date ts) => { priority, delay := base.delay, schedule := some ts }
  | some (.millis n) => { priority, delay := some n, schedule := base.schedule }

/-- Truthiness of `options.delay` (a number: zero is falsy). -/
def delayTruthy (o : InternalEmitterOptions) : Bool :=
  match o.delay with
  | none => false
  | some n => n != 0

/-- Truthiness of `options.schedule` (a Date object: truthy whenever
present). -/
def scheduleTruthy (o : InternalEmitterOptions) : Bool :=
  o.schedule.isSome

/-- Group value used in the demission queue name:
`options.schedule ? +options.schedule : options.delay`. -/
def demitGroup (o : InternalEmitterOptions) : Int :=
  match o.schedule with
  | some ts => ts
  | none => o.delay.getD 0

/-- Queue assertion options (amqplib Options.AssertQueue) as used by the
demission queue. -/
structure QueueOptions where
  exclusive : Bool
  durable : Bool
  autoDelete : Bool
  deadLetterExchange : String
  deadLetterRoutingKey : String
  expires : Int
  messageTtl : Option Int
  deriving DecidableEq, Repr

/-- Result of Emitter.assertDemitQueue. -/
structure DemitResult where
  queue : String
  expiration : Int
  shouldSetExpiry : Bool
  deriving DecidableEq, Repr

/-- Embedding of Emitter.assertDemitQueue (components/Endpoint.ts).
With neither delay nor schedule truthy no demission queue is needed.
Otherwise the group is the literal schedule timestamp or the relative
delay value; the expiration is the time left until the schedule or the
delay itself; the queue name is `d:[exchange]:[event]:[group]`; the
queue dead-letters into the shared exchange under the original event,
expires 60 seconds after the computed time to live, and carries a
per-queue message TTL only for relative delays.  The returned options
are the ones the acquired worker asserts the queue with. -/
def Emitter.assertDemitQueue (exchange event : String)
    (o : InternalEmitterOptions) (now : Int) :
    Option (DemitResult × QueueOptions) :=
  if !delayTruthy o && !scheduleTruthy o then none
  else
    let shouldSetExpiry := scheduleTruthy o
    let group := demitGroup o
    let expiration : Int :=
      match o.schedule with
      | some ts => ts - now
      | none => o.delay.getD 0
    let queue := "d:" ++ exchange ++ ":" ++ event ++ ":" ++ toString group
    let qopts : QueueOptions :=
      { exclusive := false
        durable := true
        autoDelete := true
        deadLetterExchange := exchange
        deadLetterRoutingKey := event
        expires := expiration + msMillis "60s"
        messageTtl := if delayTruthy o then some expiration else none }
    some ({ queue, expiration, shouldSetExpiry }, qopts)

/-! Connection lifecycle (TemitClient.ts). -/

/-- Status of a stored promise: still pending, fulfilled, or rejected. -/
inductive AttemptStatus where
  | pending
  | fulfilled
  | rejected
  deriving DecidableEq, Repr

/-- State of the `connecting` field of TemitClient: the identity of the
stored connect attempt (numbered for the model) and its status, or
`none` when no attempt is stored.  `nextAttempt` numbers fresh
attempts. -/
structure ConnectionLifecycle where
  connecting : Option (Nat × AttemptStatus)
  nextAttempt : Nat
  deriving DecidableEq, Repr

/-- Lifecycle state of a freshly bootstrapped client, before any connect
call. -/
def ConnectionLifecycle.init : ConnectionLifecycle := ⟨none, 0⟩

/-- What one caller of connect or open observes: which stored attempt it
awaits, and whether its call started that attempt. -/
structure JoinResult where
  attempt : Nat
  startedNew : Bool
  deriving DecidableEq, Repr

/-- Embedding of TemitClient.connect: when a `connecting` promise is
stored the call returns it unchanged; only when none is stored does it
create and store a fresh attempt.  Nothing ever removes the stored
promise on rejection, so the stored attempt survives its own failure. -/
def TemitClient.connect (st : ConnectionLifecycle) :
    ConnectionLifecycle × JoinResult :=
  match st.connecting with
  | some (id, _) => (st, ⟨id, false⟩)
  | none =>
    ({ connecting := some (st.nextAttempt, .pending)
       nextAttempt := st.nextAttempt + 1 },
     ⟨st.nextAttempt, true⟩)

/-- Settlement of the stored connect attempt: the executor resolves or
rejects the stored promise; the `connecting` field keeps pointing at the
settled promise either way. -/
def TemitClient.settleConnect (st : ConnectionLifecycle) (success : Bool) :
    ConnectionLifecycle :=
  match st.connecting with
  | some (id, .pending) =>
    { st with connecting := some (id, if success then .fulfilled else .rejected) }
  | _ => st

/-- Exchange assertion options (amqplib Options.AssertExchange). -/
structure ExchangeOptions where
  durable : Bool
  internal : Bool
  autoDelete : Bool
  deriving DecidableEq, Repr

/-- The options TemitClient.connect passes to assertExchange for the
shared topic exchange. -/
def connectExchangeOptions : ExchangeOptions :=
  { durable := true, internal := false, autoDelete := true }

/-- Steps of the success path of the connect executor, in program
order. -/
inductive ConnectStep where
  | amqpConnect
  | createChannel
  | assertExchange (exchange kind : String) (opts : ExchangeOptions)
  | closeChannel
  | emitConnected
  | resolveSelf
  deriving DecidableEq, Repr

/-- The ordered actions of a successful connect attempt
(TemitClient.connect executor body). -/
def connectSuccessSteps (exchange : String) : List ConnectStep :=
  [.amqpConnect, .createChannel,
   .assertExchange exchange "topic" connectExchangeOptions,
   .closeChannel, .emitConnected, .resolveSelf]

/-! Resource pool discipline.  Every site that borrows a worker channel
has the shape `acquire; try { operation; release } catch { destroy;
throw }`; the traces below record the pool calls each site makes as a
function of the guarded operation outcome. -/

/-- Pool calls a borrowing site can make. -/
inductive PoolEvent where
  | acquire
  | release
  | destroy
  deriving DecidableEq, Repr

/-- The `acquire / try operation; release / catch destroy; rethrow`
shape shared by every borrowing site. -/
def poolGuard {α : Type} (op : Except JsErr α) :
    List PoolEvent × Except JsErr α :=
  match op with
  | .ok v => ([.acquire, .release], .ok v)
  | .error e => ([.acquire, .destroy], .error e)

/-- Pool trace of Endpoint.bootstrap: a worker asserts the endpoint
queue (released on success, destroyed with the error rethrown on
failure). -/
def Endpoint.bootstrapPoolTrace (assertQueueOutcome : Except JsErr Unit) :
    List PoolEvent × Except JsErr Unit :=
  poolGuard assertQueueOutcome

/-- Pool trace of Listener.bootstrap: a worker asserts the listener
queue, whose assertion reply carries the queue name consumed later. -/
def Listener.bootstrapPoolTrace (assertQueueOutcome : Except JsErr String) :
    List PoolEvent × Except JsErr String :=
  poolGuard assertQueueOutcome

/-- Pool trace of the reply branch of Endpoint.handleMessage: a worker
sends the serialized reply to the reply-to queue. -/
def Endpoint.replyPoolTrace (sendOutcome : Except JsErr Unit) :
    List PoolEvent × Except JsErr Unit :=
  poolGuard sendOutcome

/-- Pool trace of Emitter.assertDemitQueue: a worker asserts the
demission queue. -/
def Emitter.demitPoolTrace (assertQueueOutcome : Except JsErr Unit) :
    List PoolEvent × Except JsErr Unit :=
  poolGuard assertQueueOutcome

/-- Pool trace of Emitter.send: when a delay or schedule is set,
assertDemitQueue borrows a worker first and a failure there propagates
before the send borrows its own worker; then the send borrows a worker
to publish or to send directly to the demission queue. -/
def Emitter.sendPoolTrace (o : InternalEmitterOptions)
    (demitOutcome publishOutcome : Except JsErr Unit) :
    List PoolEvent × Except JsErr Unit :=
  if delayTruthy o || scheduleTruthy o then
    match Emitter.demitPoolTrace demitOutcome with
    | (t, .error e) => (t, .error e)
    | (t, .ok _) =>
      let (t2, r) := poolGuard publishOutcome
      (t ++ t2, r)
  else poolGuard publishOutcome

/-! Consumer bootstrap state machine (Endpoint.open and Listener.open,
identical shape in components/Endpoint.ts and components/Listener.ts). -/

/-- State of the `bootstrapped` field of an Endpoint or Listener. -/
structure ConsumerBoot where
  bootstrapped : Option (Nat × AttemptStatus)
  nextAttempt : Nat
  deriving DecidableEq, Repr

/-- A consumer as constructed, before any open call. -/
def ConsumerBoot.init : ConsumerBoot := ⟨none, 0⟩

/-- Embedding of Endpoint.open and Listener.open: when a bootstrap
promise is stored the call returns it; otherwise it starts a fresh
bootstrap, stores its promise, and attaches the catch handler that will
remove the stored promise on failure. -/
def ConsumerBoot.openCall (st : ConsumerBoot) : ConsumerBoot × JoinResult :=
  match st.bootstrapped with
  | some (id, _) => (st, ⟨id, false⟩)
  | none =>
    ({ bootstrapped := some (st.nextAttempt, .pending)
       nextAttempt := st.nextAttempt + 1 },
     ⟨st.nextAttempt, true⟩)

/-- Settlement of the stored bootstrap attempt: success leaves the
fulfilled promise stored; failure triggers the attached catch handler,
which deletes the stored promise so open can try again. -/
def ConsumerBoot.settle (st : ConsumerBoot) (success : Bool) : ConsumerBoot :=
  match st.bootstrapped with
  | some (id, .pending) =>
    if success then { st with bootstrapped := some (id, .fulfilled) }
    else { st with bootstrapped := none }
  | _ => st

/-! Client teardown (TemitClient.close) and the operations of components
created from the client.  The amqplib boundary is modelled by a
connection with a closed flag: creating a channel on a closed connection
and publishing on a channel of a closed connection throw
IllegalOperationError.  The worker pool (generic-pool v3, built in
utils/pools.ts with min 1 and max 10 and no acquire timeout) creates its
channels from the shared connection; when the factory create rejects,
the pool emits factoryCreateError and retries creation instead of
rejecting the waiting acquire, and close() only clears the pool and
never drains it, so an acquire issued once the shared connection is
closed stays pending forever.  Operation outcomes are therefore
modelled with three cases: resolve, throw, or pend forever. -/

/-- Transport errors surfaced by the modelled amqplib boundary. -/
inductive AmqpError where
  | illegalOperation
  deriving DecidableEq, Repr

/-- The shared broker connection at the amqplib boundary. -/
structure AmqpConnection where
  closed : Bool
  deriving DecidableEq, Repr

/-- Channel creation at the amqplib boundary: a closed connection
refuses new channels. -/
def AmqpConnection.createChannel (c : AmqpConnection) :
    Except AmqpError Unit :=
  if c.closed then .error .illegalOperation else .ok ()

/-- The slice of TemitClient state that component operations read: the
settled connection promise (components and the pool keep using the
connection it resolved with), the warmClose flag, and whether a connect
attempt is stored. -/
structure ClientState where
  connection : AmqpConnection
  warmClose : Bool
  connecting : Bool
  deriving DecidableEq, Repr

/-- A connected client: the connection promise has resolved with a live
connection. -/
def ClientState.connected : ClientState :=
  { connection := { closed := false }, warmClose := false, connecting := true }

/-- Embedding of TemitClient.close: warmClose is set, the transport
connection is closed and the worker pool cleared, the stored connect
attempt is deleted and the bus listeners removed.  The `connection`
promise is already settled and is not replaced. -/
def TemitClient.close (st : ClientState) : ClientState :=
  { connection := { st.connection with closed := true }
    warmClose := true
    connecting := false }

/-- A connect call issued after close: it stores and runs a fresh
attempt against a new transport connection, but the settled `connection`
promise that the pool and every existing component read is never
replaced (bootstrap does not run again), so their connection stays the
closed one. -/
def TemitClient.connectAfterClose (st : ClientState) : ClientState :=
  { st with connecting := true }

/-- Outcome of a component operation at the modelled boundary: it
resolves, it throws, or its promise stays pending forever. -/
inductive OpOutcome (α : Type) where
  | ok (v : α)
  | threw (e : AmqpError)
  | pending
  deriving DecidableEq, Repr

/-- Worker pool acquire against the client, at the generic-pool v3
boundary: the pool factory creates a channel from the shared connection;
when the factory create rejects (closed connection), the pool emits
factoryCreateError and retries creation rather than rejecting the
waiting acquire, and with close() never draining the pool and no
acquire timeout configured, the acquire stays pending forever. -/
def workerPoolAcquire (st : ClientState) : OpOutcome Unit :=
  match st.connection.createChannel with
  | .ok v => .ok v
  | .error _ => .pending

/-- A Requester send issued on a requester whose publish channel belongs
to the client connection: publishing on a channel of a closed connection
throws synchronously. -/
def Requester.sendOnClient (st : ClientState) : OpOutcome Unit :=
  if st.connection.closed then .threw .illegalOperation else .ok ()

/-- An Emitter send issued against the client: it must borrow a pool
worker before anything is published, so it goes the way of the pool
acquire. -/
def Emitter.sendOnClient (st : ClientState) : OpOutcome Unit :=
  match workerPoolAcquire st with
  | .ok _ => .ok ()
  | .threw e => .threw e
  | .pending => .pending

/-- An Endpoint or Listener open issued against the client: bootstrap
must borrow a pool worker to assert its queue before consuming, so it
goes the way of the pool acquire. -/
def Consumer.openOnClient (st : ClientState) : OpOutcome Unit :=
  match workerPoolAcquire st with
  | .ok _ => .ok ()
  | .threw e => .threw e
  | .pending => .pending

/-- Embedding of TemitClient.isConnected: the body is `return false`. -/
def TemitClient.isConnected (_st : ClientState) : Bool :=
  false

/-- Balanced-pool predicate: every acquired worker is returned by
exactly one of release or destroy. -/
def poolBalanced (evs : List PoolEvent) : Prop :=
  evs.count .acquire = evs.count .release + evs.count .destroy

/-! Helper lemmas. -/

/-- The first signal delivered to a fresh pending request settles it and
tears down every listener and the timer. -/
theorem deliver_init (t : Bool) (s : Signal) :
    deliver (initPending t) s =
      ⟨false, false, false, false, some (settleOf s)⟩ := by
  cases s <;> simp [deliver, initPending, listenerFor]

/-- Once all listeners are removed, any further signal is a no-op. -/
theorem deliver_closed (x : Option Settlement) (s : Signal) :
    deliver ⟨false, false, false, false, x⟩ s =
      ⟨false, false, false, false, x⟩ := by
  cases s <;> simp [deliver, listenerFor]

/-- Once all listeners are removed, any further stream of signals is a
no-op. -/
theorem foldl_deliver_closed (x : Option Settlement) (l : List Signal) :
    l.foldl deliver ⟨false, false, false, false, x⟩ =
      ⟨false, false, false, false, x⟩ := by
  induction l with
  | nil => rfl
  | cons s l ih => simpa [deliver_closed] using ih

/-! Claim theorems. -/

/-- C1: for every Requester call, whatever terminal signal for its
message id arrives first settles the returned promise with exactly the
outcome of that signal, and immediately afterwards all three bus
listeners for the id and the pending timeout timer are removed, so any
stream of later signals leaves the state, and in particular the
settlement, unchanged. -/
theorem C1_atMostOneSettlement (t : Bool) (s : Signal) (rest : List Signal) :
    ((s :: rest).foldl deliver (initPending t)).settled = some (settleOf s) ∧
    (deliver (initPending t) s).dataListener = false ∧
    (deliver (initPending t) s).timeoutListener = false ∧
    (deliver (initPending t) s).returnListener = false ∧
    (deliver (initPending t) s).timerActive = false ∧
    (s :: rest).foldl deliver (initPending t) = deliver (initPending t) s := by
  have h1 : deliver (initPending t) s =
      ⟨false, false, false, false, some (settleOf s)⟩ := deliver_init t s
  have h2 : (s :: rest).foldl deliver (initPending t) =
      deliver (initPending t) s := by
    simpa [List.foldl, h1] using foldl_deliver_closed (some (settleOf s)) rest
  refine ⟨?_, ?_, ?_, ?_, ?_, h2⟩ <;> simp [h1, h2]

/-- C2 counterexample: two sends with delay "1s" issued 2 seconds apart
(now = 0 and now = 2000) compute the same demission queue name, so they
do not produce two distinct bucket queues as the claim states. -/
theorem C2_counterexample :
    ((Emitter.assertDemitQueue "temit" "user.created"
        (Emitter.parseOptions {} none (some (.msStr "1s"))) 0).map
        fun r => r.1.queue) = some "d:temit:user.created:1000" ∧
    ((Emitter.assertDemitQueue "temit" "user.created"
        (Emitter.parseOptions {} none (some (.msStr "1s"))) 2000).map
        fun r => r.1.queue) = some "d:temit:user.created:1000" := by
  constructor <;> rfl

/-- C2 (amended): the bucket queue name is computed from the exchange,
the event name and the group value, which is the literal timestamp for a
schedule and the raw relative delay duration for a delay, and is
independent of the moment the send is issued; hence two sends with the
same delay for the same event share one bucket queue whether issued
within the same second or further apart. -/
theorem C2_bucketKey (exchange event : String)
    (o : InternalEmitterOptions) (now now2 : Int) :
    ((Emitter.assertDemitQueue exchange event o now).map fun r => r.1.queue) =
      ((Emitter.assertDemitQueue exchange event o now2).map fun r => r.1.queue) ∧
    ((Emitter.assertDemitQueue exchange event o now).map fun r => r.1.queue) =
      (if !delayTruthy o && !scheduleTruthy o then none
       else some ("d:" ++ exchange ++ ":" ++ event ++ ":" ++ toString (demitGroup o))) := by
  by_cases h : (!delayTruthy o && !scheduleTruthy o) = true <;>
    simp [Emitter.assertDemitQueue, h]

/-- C3 counterexample: after the single stored connect attempt fails,
a later connect call joins the same rejected attempt instead of starting
a new one, so retry is not possible on the same client. -/
theorem C3_counterexample :
    (TemitClient.connect ConnectionLifecycle.init).2.startedNew = true ∧
    (TemitClient.settleConnect
        (TemitClient.connect ConnectionLifecycle.init).1 false).connecting =
      some ((TemitClient.connect ConnectionLifecycle.init).2.attempt,
        AttemptStatus.rejected) ∧
    (TemitClient.connect (TemitClient.settleConnect
        (TemitClient.connect ConnectionLifecycle.init).1 false)).2.startedNew = false ∧
    (TemitClient.connect (TemitClient.settleConnect
        (TemitClient.connect ConnectionLifecycle.init).1 false)).2.attempt =
      (TemitClient.connect ConnectionLifecycle.init).2.attempt := by
  decide

/-- C3 (amended): connect is idempotent, so concurrent and repeated
callers await the same single stored attempt, and a failure of that
attempt is recorded on the shared attempt every caller awaits; but a
connect call issued after the failure returns the same rejected attempt
without starting a new one, so retry on the same client is not
possible. -/
theorem C3_connectSharedAttempt (st : ConnectionLifecycle)
    (h : st.connecting = none) :
    (TemitClient.connect st).2.startedNew = true ∧
    (TemitClient.connect (TemitClient.connect st).1).2.startedNew = false ∧
    (TemitClient.connect (TemitClient.connect st).1).2.attempt =
      (TemitClient.connect st).2.attempt ∧
    (TemitClient.connect (TemitClient.connect st).1).1 =
      (TemitClient.connect st).1 ∧
    (TemitClient.settleConnect (TemitClient.connect st).1 false).connecting =
      some ((TemitClient.connect st).2.attempt, AttemptStatus.rejected) ∧
    (TemitClient.connect
        (TemitClient.settleConnect (TemitClient.connect st).1 false)).2.startedNew =
      false ∧
    (TemitClient.connect
        (TemitClient.settleConnect (TemitClient.connect st).1 false)).2.attempt =
      (TemitClient.connect st).2.attempt := by
  cases st with
  | mk c n =>
    subst h
    simp [TemitClient.connect, TemitClient.settleConnect]

/-- Witness for C3_connectSharedAttempt at the freshly bootstrapped
lifecycle state. -/
theorem C3_connectSharedAttempt_witness :
    ConnectionLifecycle.init.connecting = none ∧
    (TemitClient.connect ConnectionLifecycle.init).2.startedNew = true :=
  ⟨rfl, (C3_connectSharedAttempt ConnectionLifecycle.init rfl).1⟩

/-- C4 counterexample: the assertExchange options of connect declare the
exchange durable and not internal, but with auto-delete enabled, not
disabled as the claim states. -/
theorem C4_counterexample :
    connectExchangeOptions.durable = true ∧
    connectExchangeOptions.internal = false ∧
    connectExchangeOptions.autoDelete = true := by
  decide

/-- C4 (amended): connect declares the shared topic exchange durable,
not internal, and with auto-delete enabled, and does so strictly before
signalling connected on the internal bus and resolving. -/
theorem C4_exchangeDeclaration (exchange : String) :
    (connectSuccessSteps exchange)[2]? =
      some (.assertExchange exchange "topic"
        { durable := true, internal := false, autoDelete := true }) ∧
    (connectSuccessSteps exchange)[4]? = some .emitConnected ∧
    (connectSuccessSteps exchange)[5]? = some .resolveSelf ∧
    (connectSuccessSteps exchange).length = 6 := by
  exact ⟨rfl, rfl, rfl, rfl⟩

/-- C5: evaluation of Listener.handleMessage at the failing input.  A
buffered listener that receives a well-formed message whose handler
throws positively acknowledges it, because the wrapped handler resolves
with the error in the result pair instead of rejecting; only a message
whose body fails to decode is negatively acknowledged. -/
theorem C5_throwingHandlerIsAcked :
    Listener.handleMessage
        (some (.ok ({ id := "01F", type := "user.created", resource := "svc" },
          .arr [.num 42])))
        (some (.fn (.throwSync (.errorInst "Error" "boom")))) = .ok [.ack] ∧
    Listener.handleMessage
        (some (.error (.errorInst "SyntaxError" "bad json")))
        (some (.fn (.ret .null))) = .ok [.nack] := by
  exact ⟨rfl, rfl⟩

/-- C6: every consumer handler invocation is normalized to an
(error, result) pair: non-callable static data yields that data verbatim
with a null error; a synchronous throw or a rejection yields the
serialized error with a null result; an explicit null return is the
success pair (null, null), distinct from any thrown Error; a handler
returning no value yields an undefined result which the reply
serialization and the Requester-side parse deliver as null; and the
wrapped promise never rejects. -/
theorem C6_handlerNormalization :
    (∀ v : JsVal, wrapHandler (.staticData v) = .ok (JsVal.null, v)) ∧
    (∀ e : JsErr, wrapHandler (.fn (.throwSync e)) =
      .ok (serializeThrown e, JsVal.null)) ∧
    (∀ e : JsErr, wrapHandler (.fn (.reject e)) =
      .ok (serializeThrown e, JsVal.null)) ∧
    (wrapHandler (.fn (.ret JsVal.null)) = .ok (JsVal.null, JsVal.null)) ∧
    (∀ n m : String, wrapHandler (.fn (.ret JsVal.null)) ≠
      wrapHandler (.fn (.throwSync (.errorInst n m)))) ∧
    (wrapHandler (.fn (.ret JsVal.undef)) = .ok (JsVal.null, JsVal.undef)) ∧
    (endpointReplyBody (.fn (.ret JsVal.undef)) =
      .ok (stringifyPair JsVal.null JsVal.undef)) ∧
    (parseReplyConsumerMessage (some (stringifyPair JsVal.null JsVal.undef)) =
      .ok (JsVal.null, JsVal.null)) ∧
    (parseReplyConsumerMessage (some (stringifyPair JsVal.null JsVal.null)) =
      .ok (JsVal.null, JsVal.null)) ∧
    (∀ h : ConsumerHandler, (wrapHandler h).isOk = true) := by
  refine ⟨fun v => rfl, fun e => rfl, fun e => rfl, rfl, ?_, rfl, rfl, rfl, rfl, ?_⟩
  · intro n m heq
    simp [wrapHandler, serializeThrown] at heq
  · intro h
    cases h with
    | staticData v => rfl
    | fn outcome => cases outcome <;> rfl

/-- Witness for C6_handlerNormalization at concrete values. -/
theorem C6_handlerNormalization_witness :
    wrapHandler (.staticData (JsVal.num 7)) = .ok (JsVal.null, JsVal.num 7) ∧
    wrapHandler (.fn (.ret JsVal.null)) ≠
      wrapHandler (.fn (.throwSync (.errorInst "Error" "boom"))) :=
  ⟨C6_handlerNormalization.1 (JsVal.num 7),
   C6_handlerNormalization.2.2.2.2.1 "Error" "boom"⟩

/-- C7: each pool-borrowing site pairs its single acquire with exactly
one of release or destroy, never both and never neither, releasing on
success and destroying with the error rethrown on failure; the composite
Emitter.send trace, which may borrow once for the demission queue and
once for the publish, stays balanced and destroys exactly when it
propagates an error. -/
theorem C7_poolDiscipline (rq : Except JsErr Unit) (lq : Except JsErr String)
    (rp dm pb : Except JsErr Unit) (o : InternalEmitterOptions) :
    ((Endpoint.bootstrapPoolTrace rq).1.count .acquire = 1 ∧
      (Endpoint.bootstrapPoolTrace rq).1.count .release =
        (if rq.isOk then 1 else 0) ∧
      (Endpoint.bootstrapPoolTrace rq).1.count .destroy =
        (if rq.isOk then 0 else 1) ∧
      (Endpoint.bootstrapPoolTrace rq).2 = rq) ∧
    ((Listener.bootstrapPoolTrace lq).1.count .acquire = 1 ∧
      (Listener.bootstrapPoolTrace lq).1.count .release =
        (if lq.isOk then 1 else 0) ∧
      (Listener.bootstrapPoolTrace lq).1.count .destroy =
        (if lq.isOk then 0 else 1) ∧
      (Listener.bootstrapPoolTrace lq).2 = lq) ∧
    ((Endpoint.replyPoolTrace rp).1.count .acquire = 1 ∧
      (Endpoint.replyPoolTrace rp).1.count .release =
        (if rp.isOk then 1 else 0) ∧
      (Endpoint.replyPoolTrace rp).1.count .destroy =
        (if rp.isOk then 0 else 1) ∧
      (Endpoint.replyPoolTrace rp).2 = rp) ∧
    ((Emitter.demitPoolTrace dm).1.count .acquire = 1 ∧
      (Emitter.demitPoolTrace dm).1.count .release =
        (if dm.isOk then 1 else 0) ∧
      (Emitter.demitPoolTrace dm).1.count .destroy =
        (if dm.isOk then 0 else 1) ∧
      (Emitter.demitPoolTrace dm).2 = dm) ∧
    (poolBalanced (Emitter.sendPoolTrace o dm pb).1 ∧
      (Emitter.sendPoolTrace o dm pb).1.count .destroy =
        (if (Emitter.sendPoolTrace o dm pb).2.isOk then 0 else 1)) := by
  refine ⟨?_, ?_, ?_, ?_, ?_⟩
  · cases rq <;> simp [Endpoint.bootstrapPoolTrace, poolGuard, Except.isOk, Except.toBool, List.count_cons]
  · cases lq <;> simp [Listener.bootstrapPoolTrace, poolGuard, Except.isOk, Except.toBool, List.count_cons]
  · cases rp <;> simp [Endpoint.replyPoolTrace, poolGuard, Except.isOk, Except.toBool, List.count_cons]
  · cases dm <;> simp [Emitter.demitPoolTrace, poolGuard, Except.isOk, Except.toBool, List.count_cons]
  · by_cases h : (delayTruthy o || scheduleTruthy o) = true <;>
      cases dm <;> cases pb <;>
        simp [Emitter.sendPoolTrace, Emitter.demitPoolTrace, poolGuard,
          poolBalanced, Except.isOk, Except.toBool, h, List.count_cons]

/-- C8: for Endpoint and Listener, the first open call starts the single
bootstrap attempt and every further call while it is stored joins it
without starting another; a failed bootstrap removes the stored promise
so the next open starts a fresh attempt; a successful bootstrap stays
stored so later open calls return the bootstrapped instance without
re-bootstrapping. -/
theorem C8_openStateMachine (st : ConsumerBoot) (h : st.bootstrapped = none) :
    (ConsumerBoot.openCall st).2.startedNew = true ∧
    (ConsumerBoot.openCall (ConsumerBoot.openCall st).1).2.startedNew = false ∧
    (ConsumerBoot.openCall (ConsumerBoot.openCall st).1).2.attempt =
      (ConsumerBoot.openCall st).2.attempt ∧
    (ConsumerBoot.openCall (ConsumerBoot.openCall st).1).1 =
      (ConsumerBoot.openCall st).1 ∧
    (ConsumerBoot.settle (ConsumerBoot.openCall st).1 false).bootstrapped =
      none ∧
    (ConsumerBoot.openCall
        (ConsumerBoot.settle (ConsumerBoot.openCall st).1 false)).2.startedNew =
      true ∧
    (ConsumerBoot.settle (ConsumerBoot.openCall st).1 true).bootstrapped =
      some ((ConsumerBoot.openCall st).2.attempt, AttemptStatus.fulfilled) ∧
    (ConsumerBoot.openCall
        (ConsumerBoot.settle (ConsumerBoot.openCall st).1 true)).2.startedNew =
      false ∧
    (ConsumerBoot.openCall
        (ConsumerBoot.settle (ConsumerBoot.openCall st).1 true)).1 =
      ConsumerBoot.settle (ConsumerBoot.openCall st).1 true := by
  cases st with
  | mk b n =>
    subst h
    simp [ConsumerBoot.openCall, ConsumerBoot.settle]

/-- Witness for C8_openStateMachine at a freshly constructed consumer. -/
theorem C8_openStateMachine_witness :
    ConsumerBoot.init.bootstrapped = none ∧
    (ConsumerBoot.openCall ConsumerBoot.init).2.startedNew = true :=
  ⟨rfl, (C8_openStateMachine ConsumerBoot.init rfl).1⟩

/-- C9 counterexample: once close has resolved on a connected client, an
Emitter send and an Endpoint or Listener open do not fail — their
promises stay pending forever on the worker-pool acquire, because the
pool retries the failing channel factory indefinitely and never rejects
the waiting acquire.  The claim that any operation on a component of a
closed client fails rather than silently hanging is therefore false at
this concrete input. -/
theorem C9_counterexample :
    Emitter.sendOnClient (TemitClient.close ClientState.connected) =
      .pending ∧
    Consumer.openOnClient (TemitClient.close ClientState.connected) =
      .pending := by
  exact ⟨rfl, rfl⟩

/-- C9 (amended): once close has resolved, a Requester send fails fast
with a transport error (publishing on a channel of the closed connection
throws), while an Emitter send and an Endpoint or Listener open hang
forever on the worker-pool acquire; the client is not reusable either
way, since even after a further connect call the components keep reading
the settled closed connection, so the Requester send still throws and
the pool-borrowing operations still hang. -/
theorem C9_closedClientOutcomes (st : ClientState) :
    Requester.sendOnClient (TemitClient.close st) =
      .threw .illegalOperation ∧
    Emitter.sendOnClient (TemitClient.close st) = .pending ∧
    Consumer.openOnClient (TemitClient.close st) = .pending ∧
    Requester.sendOnClient
        (TemitClient.connectAfterClose (TemitClient.close st)) =
      .threw .illegalOperation ∧
    Emitter.sendOnClient
        (TemitClient.connectAfterClose (TemitClient.close st)) = .pending ∧
    Consumer.openOnClient
        (TemitClient.connectAfterClose (TemitClient.close st)) = .pending := by
  simp [Requester.sendOnClient, Emitter.sendOnClient, Consumer.openOnClient,
    workerPoolAcquire, AmqpConnection.createChannel, TemitClient.close,
    TemitClient.connectAfterClose]

/-- C10: isConnected returns false in every client state, in particular
before connect, after a successful connect, and after close. -/
theorem C10_isConnectedFalse (st : ClientState) :
    TemitClient.isConnected st = false ∧
    TemitClient.isConnected ClientState.connected = false ∧
    TemitClient.isConnected (TemitClient.close ClientState.connected) = false := by
  exact ⟨rfl, rfl, rfl⟩

end Temit
